import Mathlib

/-!
Shallow embedding of the live duplex media session of
`src/components/LiveFeature.tsx` (the `LiveFeature` React component):
its component state / refs, the `onMessage` transport handler, the
`cleanup` teardown routine, `stopScreenShare`, `startSession`, the
mute toggle and the `onaudioprocess` capture callback.

Modelling conventions:
- React state hooks and mutable refs become fields of `LiveState`.
- Externally observable calls that the claims talk about are recorded
  in ghost log fields (`startedLog` for `source.start`, `stoppedLog`
  for `source.stop`, `sentFrames` for `session.sendRealtimeInput` of
  audio, and release-action lists for teardown).
- Decoding of an inbound chunk is driven by a `decodeOk` flag on the
  modelled message; a failed decode raises inside the `async` handler,
  which aborts the remainder of that handler invocation (mirrors the
  uncaught rejection of `await decodeAudioData`).
- Times and durations are rationals; the output clock value at message
  arrival is an input of the handler.
-/

/-- The session status, mirroring
`useState<'disconnected' | 'connecting' | 'connected'>`. -/
inductive Status
  | disconnected
  | connecting
  | connected
deriving DecidableEq

/-- Transcript roles, mirroring `role: 'user' | 'model'`. -/
inductive Role
  | user
  | model
deriving DecidableEq

/-- One finalized transcript entry (`TranscriptItem` in the source). -/
structure TranscriptItem where
  role : Role
  text : String
deriving DecidableEq

/-- Model of JavaScript `String.prototype.trim()` (used by the source at
turn completion): removes leading and trailing whitespace characters. -/
def strTrim (s : String) : String :=
  ⟨((s.data.dropWhile Char.isWhitespace).reverse.dropWhile Char.isWhitespace).reverse⟩

/-- The decoded payload of an inbound audio chunk: whether
`decode`/`decodeAudioData` succeeds, and the decoded buffer's duration. -/
structure AudioData where
  decodeOk : Bool
  duration : ℚ
deriving DecidableEq

/-- An inbound `LiveServerMessage`, restricted to the fields the handler
reads: `serverContent.modelTurn.parts[0].inlineData.data` (audio),
`serverContent.outputTranscription.text`,
`serverContent.inputTranscription.text`, `serverContent.turnComplete`
and `serverContent.interrupted`. -/
structure Msg where
  audio : Option AudioData
  outputTranscription : Option String
  inputTranscription : Option String
  turnComplete : Bool
  interrupted : Bool
deriving DecidableEq

/-- The component's state hooks and refs.  Resource handles
(`audioContextRef`, `inputSourceRef`, `processorRef`, `streamRef`,
`videoStreamRef`, `videoIntervalRef`) are `Option Nat` ids: `some`
while held, `none` when the ref is null.  `outputCtxOpen` tracks the
output `AudioContext` created locally in `startSession` (it lives in a
closure, not a ref).  `capturedMuted` is the value of the `isMuted`
binding captured by the closures created when `startSession` ran — the
installed `onaudioprocess` handler reads this captured binding, not the
current React state.  `nextSourceId` supplies fresh ids for scheduled
playback buffers.  `startedLog`, `stoppedLog`, `sentFrames` are ghost
observation logs. -/
structure LiveState where
  isConnected : Bool
  isMuted : Bool
  status : Status
  transcript : List TranscriptItem
  captionText : String
  isScreenSharing : Bool
  audioContext : Option Nat
  outputCtxOpen : Bool
  inputSource : Option Nat
  processor : Option Nat
  stream : Option Nat
  sessionPromise : Bool
  videoStream : Option Nat
  videoInterval : Option Nat
  currentInput : String
  currentOutput : String
  nextStartTime : ℚ
  sources : List Nat
  nextSourceId : Nat
  capturedMuted : Bool
  startedLog : List (ℚ × ℚ)
  stoppedLog : List Nat
  sentFrames : Nat
deriving DecidableEq

/-- The initial component state: `useState` initial values and null refs. -/
def initState : LiveState :=
  { isConnected := false
    isMuted := false
    status := Status.disconnected
    transcript := []
    captionText := ""
    isScreenSharing := false
    audioContext := none
    outputCtxOpen := false
    inputSource := none
    processor := none
    stream := none
    sessionPromise := false
    videoStream := none
    videoInterval := none
    currentInput := ""
    currentOutput := ""
    nextStartTime := 0
    sources := []
    nextSourceId := 0
    capturedMuted := false
    startedLog := []
    stoppedLog := []
    sentFrames := 0 }

/-- The audio branch of `onMessage` (lines 206–224): bump the watermark
to `max(nextStartTime, outputCtx.currentTime)`, then decode; on success
schedule the buffer at the watermark, advance the watermark by the
buffer's duration and register the source in `sourcesRef`; on decode
failure the `await` rejects — the returned flag is `false` and the
caller skips the rest of the handler body. -/
def handleAudio (clock : ℚ) (a : AudioData) (s : LiveState) : LiveState × Bool :=
  let s := { s with nextStartTime := max s.nextStartTime clock }
  if a.decodeOk then
    ({ s with
        startedLog := s.startedLog ++ [(s.nextStartTime, a.duration)]
        nextStartTime := s.nextStartTime + a.duration
        sources := s.sources ++ [s.nextSourceId]
        nextSourceId := s.nextSourceId + 1 }, true)
  else
    (s, false)

/-- The transcription branch of `onMessage` (lines 227–235): append the
output delta to `currentOutputRef` (also shown as the caption), and the
input delta to `currentInputRef`. -/
def handleTranscription (m : Msg) (s : LiveState) : LiveState :=
  let s :=
    match m.outputTranscription with
    | some t =>
        { s with
            currentOutput := s.currentOutput ++ t
            captionText := s.currentOutput ++ t }
    | none => s
  match m.inputTranscription with
  | some t => { s with currentInput := s.currentInput ++ t }
  | none => s

/-- The `turnComplete` branch of `onMessage` (lines 237–251): trim both
accumulations; if either is non-empty, append a user item and/or a model
item (user first); then clear both accumulations. -/
def handleTurnComplete (s : LiveState) : LiveState :=
  let input := strTrim s.currentInput
  let output := strTrim s.currentOutput
  let s :=
    if input ≠ "" ∨ output ≠ "" then
      { s with
          transcript := s.transcript
            ++ (if input ≠ "" then [⟨Role.user, input⟩] else [])
            ++ (if output ≠ "" then [⟨Role.model, output⟩] else []) }
    else s
  { s with currentInput := "", currentOutput := "" }

/-- The `interrupted` branch of `onMessage` (lines 253–259): stop every
registered source, clear the set, reset the watermark to 0, discard the
output accumulation and the caption. -/
def handleInterrupted (s : LiveState) : LiveState :=
  { s with
      stoppedLog := s.stoppedLog ++ s.sources
      sources := []
      nextStartTime := 0
      currentOutput := ""
      captionText := "" }

/-- The part of `onMessage` after the audio branch: transcription, then
turn completion, then interruption, in source order. -/
def onMessageRest (m : Msg) (s : LiveState) : LiveState :=
  let s := handleTranscription m s
  let s := if m.turnComplete then handleTurnComplete s else s
  if m.interrupted then handleInterrupted s else s

/-- The `onMessage` callback (lines 204–260).  `clock` is
`outputCtx.currentTime` when the message arrives.  When the message
carries audio whose decode fails, the `async` handler's rejection aborts
the invocation right after the watermark bump. -/
def onMessage (clock : ℚ) (m : Msg) (s : LiveState) : LiveState :=
  match m.audio with
  | some a =>
      match handleAudio clock a s with
      | (s1, true) => onMessageRest m s1
      | (s1, false) => s1
  | none => onMessageRest m s

/-- Sequential delivery of messages, each tagged with the output clock
value at its arrival. -/
def processMessages : List (ℚ × Msg) → LiveState → LiveState
  | [], s => s
  | (c, m) :: rest, s => processMessages rest (onMessage c m s)

/-- A message carrying one decodable audio chunk and nothing else. -/
def audioMsg (d : ℚ) : Msg :=
  { audio := some { decodeOk := true, duration := d }
    outputTranscription := none
    inputTranscription := none
    turnComplete := false
    interrupted := false }

/-- A message carrying only a partial output-transcription delta. -/
def outputDeltaMsg (t : String) : Msg :=
  { audio := none
    outputTranscription := some t
    inputTranscription := none
    turnComplete := false
    interrupted := false }

/-- A message carrying only `turnComplete`. -/
def turnMsg : Msg :=
  { audio := none
    outputTranscription := none
    inputTranscription := none
    turnComplete := true
    interrupted := false }

/-- A message carrying only `interrupted`. -/
def interruptMsg : Msg :=
  { audio := none
    outputTranscription := none
    inputTranscription := none
    turnComplete := false
    interrupted := true }

/-- The start times and durations that a run of decodable chunks is
scheduled with: for watermark `w` and chunks `(clock, duration)`, each
chunk starts at `max w clock` and the watermark advances by the
duration.  This is exactly the watermark arithmetic of `handleAudio`,
iterated. -/
def scheduleRun : ℚ → List (ℚ × ℚ) → List (ℚ × ℚ)
  | _, [] => []
  | w, (clock, d) :: rest =>
      let t := max w clock
      (t, d) :: scheduleRun (t + d) rest

/-- One externally observable release performed during teardown. -/
inductive ReleaseAction
  | micStop
  | processorDisconnect
  | sourceDisconnect
  | inputCtxClose
  | playbackStop (id : Nat)
  | intervalClear
  | videoStop
deriving DecidableEq

/-- `stopScreenShare` (lines 78–91): clear the frame timer, stop the
display-capture tracks, detach the hidden video element and drop the
`isScreenSharing` flag.  Returns the release actions performed. -/
def stopScreenShare (s : LiveState) : LiveState × List ReleaseAction :=
  let (s, a1) :=
    match s.videoInterval with
    | some _ => ({ s with videoInterval := none }, [ReleaseAction.intervalClear])
    | none => (s, [])
  let (s, a2) :=
    match s.videoStream with
    | some _ => ({ s with videoStream := none }, [ReleaseAction.videoStop])
    | none => (s, [])
  ({ s with isScreenSharing := false }, a1 ++ a2)

/-- The successive blocks of the `cleanup` routine (lines 46–76), in
source order. -/
inductive CStep
  | micStop
  | procDisc
  | srcDisc
  | ctxClose
  | playbackStop
  | screen
  | stateReset
deriving DecidableEq

/-- The order in which `cleanup` executes its blocks. -/
def cleanupStepOrder : List CStep :=
  [CStep.micStop, CStep.procDisc, CStep.srcDisc, CStep.ctxClose,
   CStep.playbackStop, CStep.screen, CStep.stateReset]

/-- One block of `cleanup`: the null-guarded releases of the refs, the
stop-and-clear of the playback sources, the screen-share stop, and the
final state reset (which also clears the transcript state). -/
def runStep : CStep → LiveState → LiveState × List ReleaseAction
  | CStep.micStop, s =>
      match s.stream with
      | some _ => ({ s with stream := none }, [ReleaseAction.micStop])
      | none => (s, [])
  | CStep.procDisc, s =>
      match s.processor with
      | some _ => ({ s with processor := none }, [ReleaseAction.processorDisconnect])
      | none => (s, [])
  | CStep.srcDisc, s =>
      match s.inputSource with
      | some _ => ({ s with inputSource := none }, [ReleaseAction.sourceDisconnect])
      | none => (s, [])
  | CStep.ctxClose, s =>
      match s.audioContext with
      | some _ => ({ s with audioContext := none }, [ReleaseAction.inputCtxClose])
      | none => (s, [])
  | CStep.playbackStop, s =>
      ({ s with stoppedLog := s.stoppedLog ++ s.sources, sources := [] },
       s.sources.map ReleaseAction.playbackStop)
  | CStep.screen, s => stopScreenShare s
  | CStep.stateReset, s =>
      ({ s with
          isConnected := false
          status := Status.disconnected
          transcript := []
          captionText := ""
          currentInput := ""
          currentOutput := "" }, [])

/-- Run a list of cleanup blocks in order.  `cleanup` has no
`try`/`catch` around its blocks, so an exception raised by a block
(modelled by `fail`) propagates and the remaining blocks never run; the
Boolean result records whether the run completed. -/
def runSteps (fail : CStep → Bool) :
    List CStep → LiveState → LiveState × List ReleaseAction × Bool
  | [], s => (s, [], true)
  | st :: rest, s =>
      if fail st then (s, [], false)
      else
        let (s1, a) := runStep st s
        let r := runSteps fail rest s1
        (r.1, a ++ r.2.1, r.2.2)

/-- The `cleanup` routine (lines 46–76) on its normal (exception-free)
path, returning the final state and the release actions performed. -/
def cleanup (s : LiveState) : LiveState × List ReleaseAction :=
  let r := runSteps (fun _ => false) cleanupStepOrder s
  (r.1, r.2.1)

/-- `startSession` (lines 166–274) up to its first `await`-failure
boundary.  `micOk` says whether `getUserMedia` resolves.  The input
`AudioContext` is created and stored in `audioContextRef`, the output
`AudioContext` is created as a local, then the microphone is requested.
On success the stream is stored, `connectLive` is called (its callbacks
close over the current `isMuted` binding) and `sessionPromiseRef` is
set; the `catch` block only does `setStatus('disconnected')`. -/
def startSession (micOk : Bool) (s : LiveState) : LiveState :=
  let s := { s with status := Status.connecting }
  let s := { s with audioContext := some s.nextSourceId }
  let s := { s with outputCtxOpen := true }
  if micOk then
    { s with
        stream := some (s.nextSourceId + 1)
        sessionPromise := true
        capturedMuted := s.isMuted
        nextSourceId := s.nextSourceId + 2 }
  else
    { s with status := Status.disconnected }

/-- The `onOpen` callback (lines 179–203): mark the session connected
and install the capture graph (`createMediaStreamSource`,
`createScriptProcessor`, `onaudioprocess` assignment, connections). -/
def onOpen (s : LiveState) : LiveState :=
  { s with
      status := Status.connected
      isConnected := true
      captionText := ""
      inputSource := some s.nextSourceId
      processor := some (s.nextSourceId + 1)
      nextSourceId := s.nextSourceId + 2 }

/-- One invocation of `processor.onaudioprocess` (lines 188–196).  The
handler's `if (isMuted) return` reads the `isMuted` binding captured by
the closure when `startSession` ran (React state updates rebind a fresh
`isMuted` in later renders; the installed handler keeps the old one),
i.e. `capturedMuted`.  When not muted the frame is encoded with
`createPcmBlob` and sent via `sendRealtimeInput`. -/
def onaudioprocess (s : LiveState) : LiveState :=
  if s.capturedMuted then s
  else { s with sentFrames := s.sentFrames + 1 }

/-- The mute button's `onClick` (line 363): `setIsMuted(!isMuted)`. -/
def toggleMute (s : LiveState) : LiveState :=
  { s with isMuted := !s.isMuted }

/-- The concrete chunk run used to witness C1. -/
def c1Chunks : List (ℚ × ℚ) := [(0, 1), (0, 2), (5, 3)]

/-- A message carrying only a partial input-transcription delta. -/
def inputDeltaMsg (t : String) : Msg :=
  { audio := none
    outputTranscription := none
    inputTranscription := some t
    turnComplete := false
    interrupted := false }

/-- The concrete delta run used to witness C4 (scenario: "Ol" then
"á, tudo bem?" then turn-complete). -/
def c4Deltas : List String := ["Ol", "á, tudo bem?"]

/-- A fully connected session state holding every resource: both audio
contexts open, capture graph installed, microphone held, screen share
active, two buffers scheduled, and some transcript state. -/
def connectedState : LiveState :=
  { initState with
      isConnected := true
      status := Status.connected
      audioContext := some 0
      outputCtxOpen := true
      inputSource := some 1
      processor := some 2
      stream := some 3
      sessionPromise := true
      videoStream := some 4
      videoInterval := some 5
      isScreenSharing := true
      transcript := [⟨Role.user, "oi"⟩]
      currentOutput := "parcial"
      sources := [6, 7]
      nextSourceId := 8 }

/-- A teardown run in which the first block (stopping the microphone
tracks) raises an exception. -/
def failMicStopOnly : CStep → Bool
  | CStep.micStop => true
  | _ => false

/-- The state at the failing input of C8: an in-flight agent
accumulation exists when the malformed chunk arrives. -/
def c8State : LiveState := { initState with currentOutput := "olá" }

/-- The failing message of C8: an audio chunk that fails to decode,
in a message that also carries `turnComplete`. -/
def badAudioTurnMsg : Msg :=
  { audio := some { decodeOk := false, duration := 1 }
    outputTranscription := none
    inputTranscription := none
    turnComplete := true
    interrupted := false }

lemma onMessage_audioMsg (c d : ℚ) (s : LiveState) :
    onMessage c (audioMsg d) s =
      { s with
          startedLog := s.startedLog ++ [(max s.nextStartTime c, d)]
          nextStartTime := max s.nextStartTime c + d
          sources := s.sources ++ [s.nextSourceId]
          nextSourceId := s.nextSourceId + 1 } := rfl

lemma processMessages_audio (chunks : List (ℚ × ℚ)) :
    ∀ s : LiveState,
      (processMessages (chunks.map fun p => (p.1, audioMsg p.2)) s).startedLog
        = s.startedLog ++ scheduleRun s.nextStartTime chunks := by
  induction chunks with
  | nil => intro s; simp [processMessages, scheduleRun]
  | cons p rest ih =>
      intro s
      simp only [List.map_cons, processMessages, onMessage_audioMsg, scheduleRun]
      rw [ih]
      simp [List.append_assoc]

lemma scheduleRun_lower_bound (chunks : List (ℚ × ℚ)) :
    ∀ w : ℚ, (∀ p ∈ chunks, 0 ≤ p.2) →
      ∀ x ∈ scheduleRun w chunks, w ≤ x.1 := by
  induction chunks with
  | nil => intro w _ x hx; simp [scheduleRun] at hx
  | cons p rest ih =>
      intro w hd x hx
      simp only [scheduleRun, List.mem_cons] at hx
      rcases hx with hx | hx
      · subst hx; exact le_max_left _ _
      · have h1 : max w p.1 + p.2 ≤ x.1 :=
          ih (max w p.1 + p.2) (fun q hq => hd q (List.mem_cons_of_mem _ hq)) x hx
        have h2 : (0 : ℚ) ≤ p.2 := hd p (List.mem_cons_self _ _)
        have h3 : w ≤ max w p.1 + p.2 :=
          le_add_of_le_of_nonneg (le_max_left _ _) h2
        exact le_trans h3 h1

lemma scheduleRun_pairwise (chunks : List (ℚ × ℚ)) :
    ∀ w : ℚ, (∀ p ∈ chunks, 0 ≤ p.2) →
      (scheduleRun w chunks).Pairwise (fun x y => x.1 + x.2 ≤ y.1) := by
  induction chunks with
  | nil => intro w _; simp [scheduleRun]
  | cons p rest ih =>
      intro w hd
      have hd' : ∀ q ∈ rest, (0 : ℚ) ≤ q.2 :=
        fun q hq => hd q (List.mem_cons_of_mem _ hq)
      simp only [scheduleRun, List.pairwise_cons]
      refine ⟨fun y hy => ?_, ih (max w p.1 + p.2) hd'⟩
      exact scheduleRun_lower_bound rest (max w p.1 + p.2) hd' y hy

lemma scheduleRun_prefix_sum (chunks : List (ℚ × ℚ)) :
    ∀ w : ℚ, (∀ p ∈ chunks, 0 ≤ p.2) →
      ∀ i : Fin (scheduleRun w chunks).length,
        ((scheduleRun w chunks).get ⟨0, i.pos⟩).1
            + (((scheduleRun w chunks).take i).map Prod.snd).sum
          ≤ ((scheduleRun w chunks).get i).1 := by
  induction chunks with
  | nil => intro w _ i; exact absurd i.pos (by simp [scheduleRun])
  | cons p rest ih =>
      intro w hd i
      have hd' : ∀ q ∈ rest, (0 : ℚ) ≤ q.2 :=
        fun q hq => hd q (List.mem_cons_of_mem _ hq)
      rcases i with ⟨i, hi⟩
      match i with
      | 0 => simp
      | Nat.succ k =>
          have hk : k < (scheduleRun (max w p.1 + p.2) rest).length := by
            simpa [scheduleRun] using hi
          have ihk := ih (max w p.1 + p.2) hd' ⟨k, hk⟩
          have hhead : max w p.1 + p.2
              ≤ ((scheduleRun (max w p.1 + p.2) rest).get ⟨0, (⟨k, hk⟩ : Fin _).pos⟩).1 :=
            scheduleRun_lower_bound rest (max w p.1 + p.2) hd' _ (List.get_mem _ _ _)
          simp only [scheduleRun, List.get_cons_succ, List.take_succ_cons,
            List.map_cons, List.sum_cons]
          calc max w p.1 + (p.2 + (((scheduleRun (max w p.1 + p.2) rest).take k).map Prod.snd).sum)
              = (max w p.1 + p.2) + (((scheduleRun (max w p.1 + p.2) rest).take k).map Prod.snd).sum := by ring
            _ ≤ ((scheduleRun (max w p.1 + p.2) rest).get ⟨0, (⟨k, hk⟩ : Fin _).pos⟩).1
                + (((scheduleRun (max w p.1 + p.2) rest).take k).map Prod.snd).sum := by
                  exact add_le_add_right hhead _
            _ ≤ ((scheduleRun (max w p.1 + p.2) rest).get ⟨k, hk⟩).1 := ihk

/-- C1: for a run of inbound audio chunks with no intervening
interruption, `onMessage` starts each decoded buffer at
`max(nextStartTime, clock)` and advances `nextStartTime` by the
buffer's duration (the scheduled log equals `scheduleRun`); hence for
any two scheduled buffers the earlier one's `[start, start+duration)`
interval ends no later than the later one begins (no overlap), and the
i-th start is at least the first start plus the sum of the first i−1
durations. -/
theorem C1_gapless_schedule (s : LiveState) (chunks : List (ℚ × ℚ))
    (hd : ∀ p ∈ chunks, 0 ≤ p.2) :
    (processMessages (chunks.map fun p => (p.1, audioMsg p.2)) s).startedLog
        = s.startedLog ++ scheduleRun s.nextStartTime chunks
      ∧ (∀ i j : Fin (scheduleRun s.nextStartTime chunks).length, i < j →
          ((scheduleRun s.nextStartTime chunks).get i).1
              + ((scheduleRun s.nextStartTime chunks).get i).2
            ≤ ((scheduleRun s.nextStartTime chunks).get j).1)
      ∧ (∀ i : Fin (scheduleRun s.nextStartTime chunks).length,
          ((scheduleRun s.nextStartTime chunks).get ⟨0, i.pos⟩).1
              + (((scheduleRun s.nextStartTime chunks).take i).map Prod.snd).sum
            ≤ ((scheduleRun s.nextStartTime chunks).get i).1) := by
  refine ⟨processMessages_audio chunks s, ?_, ?_⟩
  · exact fun i j hij =>
      List.pairwise_iff_get.mp (scheduleRun_pairwise chunks s.nextStartTime hd) i j hij
  · exact scheduleRun_prefix_sum chunks s.nextStartTime hd

lemma onMessage_turn_effect (clock : ℚ) (s : LiveState) :
    (onMessage clock turnMsg s).transcript
        = s.transcript
            ++ (if strTrim s.currentInput ≠ "" then
                  [⟨Role.user, strTrim s.currentInput⟩] else [])
            ++ (if strTrim s.currentOutput ≠ "" then
                  [⟨Role.model, strTrim s.currentOutput⟩] else [])
      ∧ (onMessage clock turnMsg s).currentInput = ""
      ∧ (onMessage clock turnMsg s).currentOutput = "" := by
  refine ⟨?_, rfl, rfl⟩
  show (handleTurnComplete s).transcript = _
  unfold handleTurnComplete
  by_cases h1 : strTrim s.currentInput = "" <;>
    by_cases h2 : strTrim s.currentOutput = "" <;>
      simp [h1, h2]

lemma onMessage_outputDeltaMsg (t : String) (clock : ℚ) (s : LiveState) :
    onMessage clock (outputDeltaMsg t) s =
      { s with
          currentOutput := s.currentOutput ++ t
          captionText := s.currentOutput ++ t } := rfl

lemma onMessage_inputDeltaMsg (t : String) (clock : ℚ) (s : LiveState) :
    onMessage clock (inputDeltaMsg t) s =
      { s with currentInput := s.currentInput ++ t } := rfl

lemma processMessages_append (l1 l2 : List (ℚ × Msg)) :
    ∀ s : LiveState,
      processMessages (l1 ++ l2) s = processMessages l2 (processMessages l1 s) := by
  induction l1 with
  | nil => intro s; rfl
  | cons p rest ih =>
      intro s
      rcases p with ⟨c, m⟩
      simp [processMessages, ih]

lemma processMessages_outputDeltas (ds : List String) :
    ∀ s : LiveState,
      (processMessages (ds.map fun t => ((0 : ℚ), outputDeltaMsg t)) s).currentOutput
          = ds.foldl (· ++ ·) s.currentOutput
        ∧ (processMessages (ds.map fun t => ((0 : ℚ), outputDeltaMsg t)) s).currentInput
          = s.currentInput
        ∧ (processMessages (ds.map fun t => ((0 : ℚ), outputDeltaMsg t)) s).transcript
          = s.transcript := by
  induction ds with
  | nil => intro s; exact ⟨rfl, rfl, rfl⟩
  | cons d rest ih =>
      intro s
      simp only [List.map_cons, processMessages, onMessage_outputDeltaMsg, List.foldl_cons]
      exact ih _

lemma processMessages_inputDeltas (ds : List String) :
    ∀ s : LiveState,
      (processMessages (ds.map fun t => ((0 : ℚ), inputDeltaMsg t)) s).currentInput
          = ds.foldl (· ++ ·) s.currentInput
        ∧ (processMessages (ds.map fun t => ((0 : ℚ), inputDeltaMsg t)) s).currentOutput
          = s.currentOutput
        ∧ (processMessages (ds.map fun t => ((0 : ℚ), inputDeltaMsg t)) s).transcript
          = s.transcript := by
  induction ds with
  | nil => intro s; exact ⟨rfl, rfl, rfl⟩
  | cons d rest ih =>
      intro s
      simp only [List.map_cons, processMessages, onMessage_inputDeltaMsg, List.foldl_cons]
      exact ih _

/-- C3: after an `interrupted` event is processed, the active playback
set is empty and every previously scheduled buffer has received a
`stop` call, the watermark `nextStartTime` is reset to 0, the in-flight
agent (output) accumulation and the caption are discarded, and the
finalized transcript list is untouched. -/
theorem C3_interrupted_clears (clock : ℚ) (s : LiveState) :
    (onMessage clock interruptMsg s).sources = []
      ∧ (onMessage clock interruptMsg s).stoppedLog = s.stoppedLog ++ s.sources
      ∧ (onMessage clock interruptMsg s).nextStartTime = 0
      ∧ (onMessage clock interruptMsg s).currentOutput = ""
      ∧ (onMessage clock interruptMsg s).captionText = ""
      ∧ (onMessage clock interruptMsg s).transcript = s.transcript :=
  ⟨rfl, rfl, rfl, rfl, rfl, rfl⟩

/-- C10: processing an `interrupted` event leaves the in-flight user
(input) accumulation, the finalized transcript list, the session
connection state, the mute flag, and the screen-sharing state with its
capture timer and stream all unchanged. -/
theorem C10_interrupted_frame (clock : ℚ) (s : LiveState) :
    (onMessage clock interruptMsg s).currentInput = s.currentInput
      ∧ (onMessage clock interruptMsg s).transcript = s.transcript
      ∧ (onMessage clock interruptMsg s).status = s.status
      ∧ (onMessage clock interruptMsg s).isConnected = s.isConnected
      ∧ (onMessage clock interruptMsg s).isMuted = s.isMuted
      ∧ (onMessage clock interruptMsg s).isScreenSharing = s.isScreenSharing
      ∧ (onMessage clock interruptMsg s).videoInterval = s.videoInterval
      ∧ (onMessage clock interruptMsg s).videoStream = s.videoStream :=
  ⟨rfl, rfl, rfl, rfl, rfl, rfl, rfl, rfl⟩

/-- C9: a `turn-complete` event appends at most one user message (the
trimmed input accumulation) and at most one agent message (the trimmed
output accumulation), user before agent, and clears both accumulations;
with no prior accumulation nothing is appended. -/
theorem C9_turn_complete_finalizes (clock : ℚ) (s : LiveState) :
    ((onMessage clock turnMsg s).transcript
        = s.transcript
            ++ (if strTrim s.currentInput ≠ "" then
                  [⟨Role.user, strTrim s.currentInput⟩] else [])
            ++ (if strTrim s.currentOutput ≠ "" then
                  [⟨Role.model, strTrim s.currentOutput⟩] else [])
      ∧ (onMessage clock turnMsg s).currentInput = ""
      ∧ (onMessage clock turnMsg s).currentOutput = "")
      ∧ (s.currentInput = "" → s.currentOutput = "" →
          (onMessage clock turnMsg s).transcript = s.transcript) := by
  refine ⟨onMessage_turn_effect clock s, fun h1 h2 => ?_⟩
  have := (onMessage_turn_effect clock s).1
  rw [this, h1, h2]
  simp [strTrim]

/-- Witness for C9: the no-prior-accumulation implication is discharged
at a concrete empty-accumulation state. -/
theorem C9_turn_complete_finalizes_witness :
    (initState.currentInput = "" ∧ initState.currentOutput = "")
      ∧ (onMessage 0 turnMsg initState).transcript = initState.transcript :=
  ⟨⟨rfl, rfl⟩, (C9_turn_complete_finalizes 0 initState).2 rfl rfl⟩

/-- C4: an ordered run of partial deltas for one direction followed by
`turn-complete` finalizes exactly the trimmed concatenation of the
deltas in arrival order (as a user message for the input direction, an
agent message for the output direction), and an empty or all-whitespace
concatenation produces no message record; afterwards the accumulations
are empty. -/
theorem C4_transcript_reconstruction (s : LiveState) (ds : List String)
    (h0 : s.currentInput = "") (h1 : s.currentOutput = "") :
    ((processMessages ((ds.map fun t => ((0 : ℚ), outputDeltaMsg t))
          ++ [((0 : ℚ), turnMsg)]) s).transcript
        = s.transcript
            ++ (if strTrim (ds.foldl (· ++ ·) "") ≠ "" then
                  [⟨Role.model, strTrim (ds.foldl (· ++ ·) "")⟩] else [])
      ∧ (processMessages ((ds.map fun t => ((0 : ℚ), outputDeltaMsg t))
          ++ [((0 : ℚ), turnMsg)]) s).currentOutput = ""
      ∧ (processMessages ((ds.map fun t => ((0 : ℚ), outputDeltaMsg t))
          ++ [((0 : ℚ), turnMsg)]) s).currentInput = "")
      ∧ ((processMessages ((ds.map fun t => ((0 : ℚ), inputDeltaMsg t))
          ++ [((0 : ℚ), turnMsg)]) s).transcript
        = s.transcript
            ++ (if strTrim (ds.foldl (· ++ ·) "") ≠ "" then
                  [⟨Role.user, strTrim (ds.foldl (· ++ ·) "")⟩] else [])
      ∧ (processMessages ((ds.map fun t => ((0 : ℚ), inputDeltaMsg t))
          ++ [((0 : ℚ), turnMsg)]) s).currentInput = ""
      ∧ (processMessages ((ds.map fun t => ((0 : ℚ), inputDeltaMsg t))
          ++ [((0 : ℚ), turnMsg)]) s).currentOutput = "") := by
  constructor
  · rw [processMessages_append]
    have hmid := processMessages_outputDeltas ds s
    set mid := processMessages (ds.map fun t => ((0 : ℚ), outputDeltaMsg t)) s with hm
    have heff := onMessage_turn_effect 0 mid
    have hstep : processMessages [((0 : ℚ), turnMsg)] mid = onMessage 0 turnMsg mid := rfl
    rw [hstep]
    refine ⟨?_, heff.2.2, heff.2.1⟩
    rw [heff.1, hmid.2.1, hmid.2.2, hmid.1, h0, h1]
    simp [strTrim]
  · rw [processMessages_append]
    have hmid := processMessages_inputDeltas ds s
    set mid := processMessages (ds.map fun t => ((0 : ℚ), inputDeltaMsg t)) s with hm
    have heff := onMessage_turn_effect 0 mid
    have hstep : processMessages [((0 : ℚ), turnMsg)] mid = onMessage 0 turnMsg mid := rfl
    rw [hstep]
    refine ⟨?_, heff.2.1, heff.2.2⟩
    rw [heff.1, hmid.2.1, hmid.2.2, hmid.1, h0, h1]
    simp [strTrim]

/-- Witness for C4 at the concrete two-delta run. -/
theorem C4_transcript_reconstruction_witness :
    (initState.currentInput = "" ∧ initState.currentOutput = "")
      ∧ (((processMessages ((c4Deltas.map fun t => ((0 : ℚ), outputDeltaMsg t))
            ++ [((0 : ℚ), turnMsg)]) initState).transcript
          = initState.transcript
              ++ (if strTrim (c4Deltas.foldl (· ++ ·) "") ≠ "" then
                    [⟨Role.model, strTrim (c4Deltas.foldl (· ++ ·) "")⟩] else [])
        ∧ (processMessages ((c4Deltas.map fun t => ((0 : ℚ), outputDeltaMsg t))
            ++ [((0 : ℚ), turnMsg)]) initState).currentOutput = ""
        ∧ (processMessages ((c4Deltas.map fun t => ((0 : ℚ), outputDeltaMsg t))
            ++ [((0 : ℚ), turnMsg)]) initState).currentInput = "")
        ∧ ((processMessages ((c4Deltas.map fun t => ((0 : ℚ), inputDeltaMsg t))
            ++ [((0 : ℚ), turnMsg)]) initState).transcript
          = initState.transcript
              ++ (if strTrim (c4Deltas.foldl (· ++ ·) "") ≠ "" then
                    [⟨Role.user, strTrim (c4Deltas.foldl (· ++ ·) "")⟩] else [])
        ∧ (processMessages ((c4Deltas.map fun t => ((0 : ℚ), inputDeltaMsg t))
            ++ [((0 : ℚ), turnMsg)]) initState).currentInput = ""
        ∧ (processMessages ((c4Deltas.map fun t => ((0 : ℚ), inputDeltaMsg t))
            ++ [((0 : ℚ), turnMsg)]) initState).currentOutput = "")) :=
  ⟨⟨rfl, rfl⟩, C4_transcript_reconstruction initState c4Deltas rfl rfl⟩

/-- Witness for C1 at a concrete three-chunk run. -/
theorem C1_gapless_schedule_witness :
    (∀ p ∈ c1Chunks, (0 : ℚ) ≤ p.2)
      ∧ (processMessages (c1Chunks.map fun p => (p.1, audioMsg p.2)) initState).startedLog
          = initState.startedLog ++ scheduleRun initState.nextStartTime c1Chunks :=
  ⟨by decide, (C1_gapless_schedule initState c1Chunks (by decide)).1⟩

lemma cleanup_eq (s : LiveState) :
    cleanup s =
      ({ s with
          stream := none
          processor := none
          inputSource := none
          audioContext := none
          stoppedLog := s.stoppedLog ++ s.sources
          sources := []
          videoInterval := none
          videoStream := none
          isScreenSharing := false
          isConnected := false
          status := Status.disconnected
          transcript := []
          captionText := ""
          currentInput := ""
          currentOutput := "" },
       (if s.stream.isSome then [ReleaseAction.micStop] else [])
         ++ (if s.processor.isSome then [ReleaseAction.processorDisconnect] else [])
         ++ (if s.inputSource.isSome then [ReleaseAction.sourceDisconnect] else [])
         ++ (if s.audioContext.isSome then [ReleaseAction.inputCtxClose] else [])
         ++ s.sources.map ReleaseAction.playbackStop
         ++ (if s.videoInterval.isSome then [ReleaseAction.intervalClear] else [])
         ++ (if s.videoStream.isSome then [ReleaseAction.videoStop] else [])) := by
  rcases s with ⟨ic, im, st, tr, cap, ss, ac, oc, isrc, pr, strm, sp, vs, vi, ci, co,
    nst, srcs, nid, cm, slog, stlog, sf⟩
  cases strm <;> cases pr <;> cases isrc <;> cases ac <;> cases vi <;> cases vs <;>
    simp [cleanup, runSteps, runStep, stopScreenShare, cleanupStepOrder]

lemma count_playbackStop_map (a : ReleaseAction) (l : List Nat)
    (h : ∀ id : Nat, a ≠ ReleaseAction.playbackStop id) :
    (l.map ReleaseAction.playbackStop).count a = 0 := by
  rw [List.count_eq_zero]
  intro hmem
  rcases List.mem_map.mp hmem with ⟨id, _, hid⟩
  exact h id hid.symm

/-- C7: the teardown routine is idempotent — running `cleanup` a second
time (in particular after a remote close already ran it) changes no
state, performs no release action, leaves the session `Disconnected`,
and across both invocations the microphone and the input audio context
are each released exactly once (once when held, never when not). -/
theorem C7_teardown_idempotent (s : LiveState) :
    cleanup (cleanup s).1 = ((cleanup s).1, [])
      ∧ (cleanup s).1.status = Status.disconnected
      ∧ ((cleanup s).2 ++ (cleanup (cleanup s).1).2).count ReleaseAction.micStop
          = (if s.stream.isSome then 1 else 0)
      ∧ ((cleanup s).2 ++ (cleanup (cleanup s).1).2).count ReleaseAction.inputCtxClose
          = (if s.audioContext.isSome then 1 else 0) := by
  have hsecond : cleanup (cleanup s).1 = ((cleanup s).1, []) := by
    rw [cleanup_eq s, cleanup_eq]
    simp
  have hmic : ∀ id : Nat, ReleaseAction.micStop ≠ ReleaseAction.playbackStop id := by
    intro id h; cases h
  have hctx : ∀ id : Nat, ReleaseAction.inputCtxClose ≠ ReleaseAction.playbackStop id := by
    intro id h; cases h
  refine ⟨hsecond, by rw [cleanup_eq s], ?_, ?_⟩
  · rw [hsecond, cleanup_eq s]
    simp only [List.append_nil, List.count_append]
    rw [count_playbackStop_map _ _ hmic]
    cases s.stream.isSome <;> cases s.processor.isSome <;> cases s.inputSource.isSome <;>
      cases s.audioContext.isSome <;> cases s.videoInterval.isSome <;>
        cases s.videoStream.isSome <;> simp [List.count_cons, List.count_nil]
  · rw [hsecond, cleanup_eq s]
    simp only [List.append_nil, List.count_append]
    rw [count_playbackStop_map _ _ hctx]
    cases s.stream.isSome <;> cases s.processor.isSome <;> cases s.inputSource.isSome <;>
      cases s.audioContext.isSome <;> cases s.videoInterval.isSome <;>
        cases s.videoStream.isSome <;> simp [List.count_cons, List.count_nil]

/-- C6 counterexample: the claim fails on the code in two ways.
`cleanup` has no per-step exception isolation: if its first block
(stopping the capture device) raises, no later block runs — the
capture graph stays installed, nothing is released, and the session
never reaches `Disconnected`.  Moreover the step the claim calls
"close the output audio context" does not exist: `cleanup` closes the
input context (`audioContextRef`) and leaves the output context open
even on a fully successful run. -/
theorem C6_teardown_counterexample :
    runSteps failMicStopOnly cleanupStepOrder connectedState
        = (connectedState, [], false)
      ∧ (runSteps failMicStopOnly cleanupStepOrder connectedState).1.status
          = Status.connected
      ∧ (runSteps failMicStopOnly cleanupStepOrder connectedState).1.processor = some 2
      ∧ (cleanup connectedState).1.outputCtxOpen = true :=
  ⟨rfl, rfl, rfl, by rw [cleanup_eq]; rfl⟩

/-- C6 (amended): the teardown routine performs, in order, the release
of each held resource — stop the capture device, disconnect the capture
graph nodes, close the *input* audio context (the output audio context
is never closed), stop and clear every scheduled playback buffer, stop
screen-share capture and release its source — and ends with the session
state `Disconnected` and the transcript accumulation cleared; the steps
are not failure-isolated: an exception in the first block aborts all
remaining blocks. -/
theorem C6_teardown_order_amended (s : LiveState) :
    (cleanup s).2
        = (if s.stream.isSome then [ReleaseAction.micStop] else [])
            ++ (if s.processor.isSome then [ReleaseAction.processorDisconnect] else [])
            ++ (if s.inputSource.isSome then [ReleaseAction.sourceDisconnect] else [])
            ++ (if s.audioContext.isSome then [ReleaseAction.inputCtxClose] else [])
            ++ s.sources.map ReleaseAction.playbackStop
            ++ (if s.videoInterval.isSome then [ReleaseAction.intervalClear] else [])
            ++ (if s.videoStream.isSome then [ReleaseAction.videoStop] else [])
      ∧ (cleanup s).1.status = Status.disconnected
      ∧ (cleanup s).1.isConnected = false
      ∧ (cleanup s).1.stream = none
      ∧ (cleanup s).1.processor = none
      ∧ (cleanup s).1.inputSource = none
      ∧ (cleanup s).1.audioContext = none
      ∧ (cleanup s).1.sources = []
      ∧ (cleanup s).1.stoppedLog = s.stoppedLog ++ s.sources
      ∧ (cleanup s).1.videoInterval = none
      ∧ (cleanup s).1.videoStream = none
      ∧ (cleanup s).1.isScreenSharing = false
      ∧ (cleanup s).1.transcript = []
      ∧ (cleanup s).1.currentInput = ""
      ∧ (cleanup s).1.currentOutput = ""
      ∧ (cleanup s).1.outputCtxOpen = s.outputCtxOpen
      ∧ runSteps failMicStopOnly cleanupStepOrder s = (s, [], false) := by
  rw [cleanup_eq s]
  refine ⟨rfl, rfl, rfl, rfl, rfl, rfl, rfl, rfl, rfl, rfl, rfl, rfl, rfl, rfl, rfl,
    rfl, rfl⟩

/-- C5 counterexample: start a connect attempt from the initial
disconnected state and let microphone acquisition fail.  The session
does return to `Disconnected`, but the partially acquired resources are
not released: the input audio context is still open and referenced and
the output audio context is still open. -/
theorem C5_connect_failure_counterexample :
    (startSession false initState).status = Status.disconnected
      ∧ (startSession false initState).audioContext = some 0
      ∧ (startSession false initState).outputCtxOpen = true :=
  ⟨rfl, rfl, rfl⟩

/-- C5 (amended): if connect fails at microphone acquisition, the
session moves directly back to `Disconnected`, but the partially
acquired resources are not released — the input audio context remains
open and referenced and the output audio context remains open; the
microphone stream itself was never acquired, so no stream is held. -/
theorem C5_connect_failure_amended (s : LiveState) (h : s.stream = none) :
    (startSession false s).status = Status.disconnected
      ∧ (startSession false s).audioContext = some s.nextSourceId
      ∧ (startSession false s).outputCtxOpen = true
      ∧ (startSession false s).stream = none :=
  ⟨rfl, rfl, rfl, h⟩

/-- Witness for C5 (amended) at the initial state. -/
theorem C5_connect_failure_amended_witness :
    initState.stream = none
      ∧ (startSession false initState).status = Status.disconnected :=
  ⟨rfl, (C5_connect_failure_amended initState rfl).1⟩

/-- C2 (code bug, evaluated at the failing input): start a session
unmuted, send one frame, toggle mute on, and run one more capture
cycle.  The mute flag is now `true`, so of the N = 2 cycles M = 1 is
muted and the claim demands N − M = 1 transmitted frame; but the
capture callback reads the stale `isMuted` binding captured when
`startSession` ran, so the code transmits 2 frames. -/
theorem C2_mute_stale_closure :
    (onaudioprocess (toggleMute (onaudioprocess
        (onOpen (startSession true initState))))).isMuted = true
      ∧ (onaudioprocess (toggleMute (onaudioprocess
          (onOpen (startSession true initState))))).sentFrames = 2
      ∧ ¬ (onaudioprocess (toggleMute (onaudioprocess
          (onOpen (startSession true initState))))).sentFrames = 2 - 1 := by
  refine ⟨rfl, rfl, ?_⟩
  decide

/-- C8 counterexample: when decoding of the chunk fails, the rest of
the *containing message* is not processed — the `turnComplete` carried
by the same message is dropped (no turn is finalized and the
accumulation survives), whereas the same message without the failing
chunk would have finalized the turn.  This contradicts the claim that
processing of the containing message continues unaffected. -/
theorem C8_decode_failure_counterexample :
    (onMessage 0 badAudioTurnMsg c8State).transcript = []
      ∧ (onMessage 0 badAudioTurnMsg c8State).currentOutput = "olá"
      ∧ (onMessage 0 turnMsg c8State).transcript = [⟨Role.model, "olá"⟩] := by
  refine ⟨rfl, rfl, ?_⟩
  decide

/-- C8 (amended): a chunk whose decode fails is dropped and the
remainder of that handler invocation is skipped — the state is exactly
the prior state with the watermark bumped to
`max(nextStartTime, clock)`; in particular no buffer is scheduled, the
transcript state and the session status are untouched, no teardown
occurs, and subsequent messages are processed normally from that
state. -/
theorem C8_decode_failure_amended (clock : ℚ) (m : Msg) (a : AudioData) (s : LiveState)
    (ha : m.audio = some a) (hfail : a.decodeOk = false) :
    onMessage clock m s = { s with nextStartTime := max s.nextStartTime clock }
      ∧ (onMessage clock m s).startedLog = s.startedLog
      ∧ (onMessage clock m s).sources = s.sources
      ∧ (onMessage clock m s).transcript = s.transcript
      ∧ (onMessage clock m s).currentInput = s.currentInput
      ∧ (onMessage clock m s).currentOutput = s.currentOutput
      ∧ (onMessage clock m s).status = s.status
      ∧ (∀ rest : List (ℚ × Msg),
          processMessages ((clock, m) :: rest) s
            = processMessages rest { s with nextStartTime := max s.nextStartTime clock }) := by
  have h1 : onMessage clock m s = { s with nextStartTime := max s.nextStartTime clock } := by
    simp [onMessage, handleAudio, ha, hfail]
  refine ⟨h1, by rw [h1], by rw [h1], by rw [h1], by rw [h1], by rw [h1], by rw [h1],
    fun rest => ?_⟩
  have h2 : processMessages ((clock, m) :: rest) s
      = processMessages rest (onMessage clock m s) := rfl
  rw [h2, h1]

/-- Witness for C8 (amended) at the concrete failing input. -/
theorem C8_decode_failure_amended_witness :
    badAudioTurnMsg.audio = some { decodeOk := false, duration := 1 }
      ∧ (AudioData.mk false 1).decodeOk = false
      ∧ onMessage 0 badAudioTurnMsg c8State
          = { c8State with nextStartTime := max c8State.nextStartTime 0 } :=
  ⟨rfl, rfl,
    (C8_decode_failure_amended 0 badAudioTurnMsg { decodeOk := false, duration := 1 }
      c8State rfl rfl).1⟩
